import Mathlib

/-!
Shallow embedding of the patient-record migration engine
(`app/utils/normalizadores.py`, `app/services/validacion.py`,
`app/services/migracion/pacientes.py`) and proofs about it.

Python `Optional[T]` is modelled as `Option T`, Python machine-free
integers as `Int`/`Nat`, Python strings as `String` (or `List Char`
where character-level work mirrors the source), and Python dicts of
fixed shape as Lean structures.  Clock reads (`date.today()`,
`datetime.now()`) are passed in as explicit parameters.
-/

/-! ## Calendar values (`datetime.date`, `datetime.time`, `datetime.datetime`) -/

/-- Model of `datetime.date`: year, month, day. -/
structure Fecha where
  year : Nat
  month : Nat
  day : Nat
deriving Repr, DecidableEq

/-- Model of `datetime.time`: hour, minute, second. -/
structure Hora where
  hour : Nat
  minute : Nat
  second : Nat
deriving Repr, DecidableEq

/-- Model of `datetime.datetime` as a date plus a time of day. -/
structure FechaHora where
  fecha : Fecha
  hora : Hora
deriving Repr, DecidableEq

/-- Python `date` comparison is lexicographic on (year, month, day). -/
def Fecha.lt (a b : Fecha) : Bool :=
  (a.year < b.year) ||
  (a.year = b.year && a.month < b.month) ||
  (a.year = b.year && a.month = b.month && a.day < b.day)

/-- Python `time` comparison is lexicographic on (hour, minute, second). -/
def Hora.lt (a b : Hora) : Bool :=
  (a.hour < b.hour) ||
  (a.hour = b.hour && a.minute < b.minute) ||
  (a.hour = b.hour && a.minute = b.minute && a.second < b.second)

/-- Python `datetime` comparison: date first, then time of day. -/
def FechaHora.lt (a b : FechaHora) : Bool :=
  a.fecha.lt b.fecha || (a.fecha = b.fecha && a.hora.lt b.hora)

/-- Gregorian leap-year test, as used by `datetime.date` validity. -/
def esBisiesto (y : Nat) : Bool :=
  y % 4 = 0 && (y % 100 ≠ 0 || y % 400 = 0)

/-- Days in a month, as enforced by the `datetime.date` constructor. -/
def diasEnMes (y m : Nat) : Nat :=
  if m = 2 then (if esBisiesto y then 29 else 28)
  else if m = 4 || m = 6 || m = 9 || m = 11 then 30
  else 31

/-- Validity check performed by the `datetime.date(y, m, d)` constructor
(`ValueError` on failure, modelled as `none`). -/
def mkFecha (y m d : Nat) : Option Fecha :=
  if 1 ≤ y && y ≤ 9999 && 1 ≤ m && m ≤ 12 && 1 ≤ d && d ≤ diasEnMes y m then
    some ⟨y, m, d⟩
  else none

/-! ## Decimal string representation (`str(int)`) and Python string predicates -/

/-- Character for a single decimal digit value. -/
def digitoChar (d : Nat) : Char := Char.ofNat (48 + d)

/-- Base-10 digits, least significant first, by fuel-bounded structural
recursion (so that concrete values reduce in the kernel). -/
def digitosInv : Nat → Nat → List Nat
  | 0, _ => []
  | f + 1, n => if n = 0 then [] else n % 10 :: digitosInv f (n / 10)

/-- Base-10 digits of `n`, least significant first (`n` itself is enough
fuel). -/
def misDigitos (n : Nat) : List Nat := digitosInv n n

/-- The fuel-bounded digit function agrees with `Nat.digits 10`. -/
theorem digitosInv_eq_digits (f : Nat) : ∀ n : Nat, n ≤ f → digitosInv f n = Nat.digits 10 n := by
  induction f with
  | zero =>
    intro n hn
    interval_cases n
    simp [digitosInv]
  | succ f ih =>
    intro n hn
    by_cases h0 : n = 0
    · simp [digitosInv, h0]
    · have hlt : n / 10 ≤ f := by
        have := Nat.div_lt_self (Nat.pos_of_ne_zero h0) (by norm_num : (1:Nat) < 10)
        omega
      rw [digitosInv, if_neg h0, ih _ hlt, Nat.digits_def' (by norm_num : (1:Nat) < 10) (Nat.pos_of_ne_zero h0)]

/-- `misDigitos` agrees with `Nat.digits 10`. -/
theorem misDigitos_eq_digits (n : Nat) : misDigitos n = Nat.digits 10 n :=
  digitosInv_eq_digits n n le_rfl

/-- Decimal character sequence of a natural number, exactly `str(n)`:
most-significant digit first, and `"0"` for zero. -/
def natDecimalChars (n : Nat) : List Char :=
  if n = 0 then ['0'] else ((misDigitos n).reverse.map digitoChar)

/-- Decimal character sequence of an integer, exactly `str(i)`:
a leading minus sign for negative values. -/
def intDecimalChars (i : Int) : List Char :=
  if i < 0 then '-' :: natDecimalChars i.natAbs else natDecimalChars i.natAbs

/-- `str(n)` for naturals as a `String`. -/
def natStr (n : Nat) : String := (natDecimalChars n).asString

/-- `str(i)` for integers as a `String`. -/
def intStr (i : Int) : String := (intDecimalChars i).asString

/-- Python `str.strip()` on a character sequence: drop leading and
trailing whitespace. -/
def stripChars (l : List Char) : List Char :=
  ((l.dropWhile Char.isWhitespace).reverse.dropWhile Char.isWhitespace).reverse

/-- Python `str.isdigit()`: non-empty and every character a digit. -/
def pyIsDigit (l : List Char) : Bool :=
  !l.isEmpty && l.all Char.isDigit

/-- Python `str.strip()` on a `String` (ASCII whitespace). -/
def pyStrip (s : String) : String := (stripChars s.data).asString

/-- Python `str.upper()` (ASCII case mapping, which covers every value the
program compares against). -/
def pyUpper (s : String) : String := (s.data.map Char.toUpper).asString

/-- Python `str.lower()` (ASCII case mapping). -/
def pyLower (s : String) : String := (s.data.map Char.toLower).asString

/-- Numeric value of a digit character, `int(c)` for `'0'..'9'`. -/
def charADigito (c : Char) : Nat := c.toNat - 48

/-! ## `normalizar_cui` (normalizadores.py lines 5-19) -/

/-- `normalizar_cui(dpi)`: keep an optional integer only when `str(dpi).strip()`
has exactly 13 characters, all digits; `None`/`0` (falsy) and everything
else map to `None`.  `int(cui_str)` equals `dpi` on this path, so the
kept value is returned unchanged. -/
def normalizar_cui (dpi : Option Int) : Option Int :=
  match dpi with
  | none => none
  | some d =>
    if d = 0 then none
    else
      let cui_str := stripChars (intDecimalChars d)
      if cui_str.length ≠ 13 || !pyIsDigit cui_str then none
      else some d

/-! ## CUI check-digit validator (validacion.py lines 58-98) -/

/-- The weighted-sum loop of `_validar_digito_verificador_cui`:
`for i, digito in enumerate(reversed(numero_completo)): suma += digito * (i + 2)`,
with `i` starting at the accumulator argument. -/
def sumaPonderada : List Nat → Nat → Nat
  | [], _ => 0
  | d :: rest, i => d * (i + 2) + sumaPonderada rest (i + 1)

/-- The final comparison of the source: error message when the computed
check digit differs from the given one. -/
def chequeoFinal (digito_calculado digito_verificador : Nat) : Bool × Option String :=
  if digito_calculado ≠ digito_verificador then
    (false, some ("Digito verificador incorrecto (esperado: " ++ natStr digito_calculado ++ ")"))
  else (true, none)

/-- `_validar_digito_verificador_cui(cui)` on the digit values of the
13-character string: first 12 digits are base+locality, last is the
check digit.  A short list would raise `IndexError` in the source,
caught and turned into a failure; modelled by the length guard. -/
def validarDigitoVerificadorCui (cui : List Nat) : Bool × Option String :=
  if cui.length = 13 then
    let numero_completo := cui.take 12
    let digito_verificador := cui.getD 12 0
    let suma := sumaPonderada numero_completo.reverse 0
    let modulo := suma % 11
    let digito_calculado := 11 - modulo
    if digito_calculado = 11 then chequeoFinal 0 digito_verificador
    else if digito_calculado = 10 then
      (false, some "CUI con digito verificador invalido (modulo 10)")
    else chequeoFinal digito_calculado digito_verificador
  else (false, some "Error al validar CUI")

/-- The expected check digit of a 12-digit base+locality sequence, per the
specified formula: weighted sum over the digits in reverse order with
weights 2, 3, 4, ...; `expected = 11 - (sum mod 11)`, with 11 replaced
by 0 (the value 10 marks an invalid number). -/
def expectedCheckDigit (ds : List Nat) : Nat :=
  let m := sumaPonderada ds.reverse 0 % 11
  if 11 - m = 11 then 0 else 11 - m

/-- `ValidadorPaciente.validar_cui(cui)` (validacion.py lines 34-56):
`None` is accepted; otherwise `str(cui)` must be 13 characters, all
digits, and pass the check-digit validator. -/
def validar_cui (cui : Option Int) : Bool × Option String :=
  match cui with
  | none => (true, none)
  | some c =>
    let cui_str := intDecimalChars c
    if cui_str.length ≠ 13 then (false, some "CUI debe tener 13 digitos")
    else if !pyIsDigit cui_str then (false, some "CUI debe contener solo numeros")
    else validarDigitoVerificadorCui (cui_str.map charADigito)


/-! ## Supporting lemmas on decimal characters -/

theorem dropWhile_eq_self_of {p : Char → Bool} {l : List Char}
    (h : ∀ c ∈ l, p c = false) : l.dropWhile p = l := by
  cases l with
  | nil => rfl
  | cons a l => simp [List.dropWhile_cons, h a (by simp)]

theorem stripChars_eq_self {l : List Char}
    (h : ∀ c ∈ l, c.isWhitespace = false) : stripChars l = l := by
  unfold stripChars
  rw [dropWhile_eq_self_of h, dropWhile_eq_self_of (fun c hc => h c (List.mem_reverse.mp hc)),
    List.reverse_reverse]

theorem digitoChar_isDigit {d : Nat} (h : d < 10) : (digitoChar d).isDigit = true := by
  interval_cases d <;> decide

theorem digitoChar_not_ws {d : Nat} (h : d < 10) : (digitoChar d).isWhitespace = false := by
  interval_cases d <;> decide

theorem natDecimalChars_all_digits (n : Nat) :
    ∀ c ∈ natDecimalChars n, c.isDigit = true := by
  intro c hc
  unfold natDecimalChars at hc
  split at hc
  · simp at hc; subst hc; decide
  · rw [misDigitos_eq_digits] at hc
    simp only [List.mem_map, List.mem_reverse] at hc
    obtain ⟨d, hd, rfl⟩ := hc
    exact digitoChar_isDigit (Nat.digits_lt_base (by norm_num) hd)

theorem natDecimalChars_not_ws (n : Nat) :
    ∀ c ∈ natDecimalChars n, c.isWhitespace = false := by
  intro c hc
  unfold natDecimalChars at hc
  split at hc
  · simp at hc; subst hc; decide
  · rw [misDigitos_eq_digits] at hc
    simp only [List.mem_map, List.mem_reverse] at hc
    obtain ⟨d, hd, rfl⟩ := hc
    exact digitoChar_not_ws (Nat.digits_lt_base (by norm_num) hd)

theorem natDecimalChars_ne_nil (n : Nat) : natDecimalChars n ≠ [] := by
  unfold natDecimalChars
  split
  · simp
  · simp only [ne_eq, List.map_eq_nil_iff, List.reverse_eq_nil_iff, misDigitos_eq_digits]
    exact Nat.digits_ne_nil_iff_ne_zero.mpr (by assumption)

theorem natDecimalChars_length {n : Nat} (h : n ≠ 0) :
    (natDecimalChars n).length = (Nat.digits 10 n).length := by
  unfold natDecimalChars
  rw [if_neg h]
  simp [misDigitos_eq_digits]

/-- Digit-count characterization: a nonzero natural has a 13-character
decimal representation exactly when it lies in `[10^12, 10^13)`. -/
theorem digits_len_eq_13_iff (n : Nat) :
    (Nat.digits 10 n).length = 13 ↔ 10 ^ 12 ≤ n ∧ n < 10 ^ 13 := by
  constructor
  · intro h
    have hn : n ≠ 0 := by
      intro h0; subst h0; simp at h
    have hlt : n < 10 ^ 13 := by
      have := Nat.lt_base_pow_length_digits (b := 10) (m := n) (by norm_num)
      rw [h] at this; exact this
    have hlen := Nat.digits_len 10 n (by norm_num) hn
    have hlog : Nat.log 10 n = 12 := by omega
    have := Nat.pow_log_le_self 10 hn
    rw [hlog] at this
    exact ⟨this, hlt⟩
  · rintro ⟨h1, h2⟩
    have hn : n ≠ 0 := by positivity
    have hlog : Nat.log 10 n = 12 :=
      Nat.log_eq_of_pow_le_of_lt_pow h1 h2
    rw [Nat.digits_len 10 n (by norm_num) hn, hlog]

/-! ## Claim C1: CUI check-digit algorithm -/

/-- Claim C1.  For every 13-digit sequence, the check-digit validator
splits off the first 12 digits (8-digit base plus 4-digit locality) and
accepts exactly when the expected digit — `11 - (weighted sum mod 11)`,
with 11 replaced by 0 — is not 10 and equals the final digit (so an
expected value of 10 is always rejected); and appending the expected
digit to any 12-digit base+locality whose expected value is not 10
yields a sequence the validator accepts. -/
theorem cui_check_digit_correcto :
    (∀ cui : List Nat, cui.length = 13 →
      ((validarDigitoVerificadorCui cui).1 = true ↔
        expectedCheckDigit (cui.take 12) ≠ 10 ∧
          expectedCheckDigit (cui.take 12) = cui.getD 12 0))
    ∧ (∀ ds : List Nat, ds.length = 12 → expectedCheckDigit ds ≠ 10 →
        (validarDigitoVerificadorCui (ds ++ [expectedCheckDigit ds])).1 = true) := by
  have principal : ∀ cui : List Nat, cui.length = 13 →
      ((validarDigitoVerificadorCui cui).1 = true ↔
        expectedCheckDigit (cui.take 12) ≠ 10 ∧
          expectedCheckDigit (cui.take 12) = cui.getD 12 0) := by
    intro cui h13
    unfold validarDigitoVerificadorCui expectedCheckDigit chequeoFinal
    rw [if_pos h13]
    set m := sumaPonderada (cui.take 12).reverse 0 % 11 with hm
    set dv := cui.getD 12 0 with hdv
    dsimp only
    split_ifs with h1 h2 h3 h4 <;> simp_all <;> omega
  refine ⟨principal, ?_⟩
  intro ds h12 hE
  have hlen : (ds ++ [expectedCheckDigit ds]).length = 13 := by simp [h12]
  have htake : (ds ++ [expectedCheckDigit ds]).take 12 = ds := by
    rw [← h12]
    exact List.take_left ds _
  have hget : (ds ++ [expectedCheckDigit ds]).getD 12 0 = expectedCheckDigit ds := by
    rw [List.getD_append_right _ _ _ _ (by omega), h12]
    simp
  rw [principal _ hlen, htake, hget]
  exact ⟨hE, rfl⟩

/-- Witness for C1: a concrete 12-digit base+locality with expected check
digit distinct from 10; the validator accepts the completed sequence. -/
theorem cui_check_digit_correcto_witness :
    (validarDigitoVerificadorCui
      ([1,2,3,4,5,6,7,8,9,0,1,2] ++ [expectedCheckDigit [1,2,3,4,5,6,7,8,9,0,1,2]])).1 = true :=
  cui_check_digit_correcto.2 [1,2,3,4,5,6,7,8,9,0,1,2] (by decide) (by decide)
/-! ## Claim C6: structural national-ID normalizer -/

/-- The decimal representation of a natural number cast to `Int` is its
natural decimal representation. -/
theorem intDecimalChars_coe_nat (n : Nat) : intDecimalChars (n : Int) = natDecimalChars n := by
  unfold intDecimalChars
  rw [if_neg (by omega)]
  simp

/-- Stripping whitespace from a decimal integer representation is the
identity: it contains no whitespace. -/
theorem stripChars_intDecimalChars (d : Int) :
    stripChars (intDecimalChars d) = intDecimalChars d := by
  apply stripChars_eq_self
  intro c hc
  unfold intDecimalChars at hc
  split at hc
  · rcases List.mem_cons.mp hc with rfl | hc
    · decide
    · exact natDecimalChars_not_ws _ _ hc
  · exact natDecimalChars_not_ws _ _ hc

/-- Claim C6.  `normalizar_cui` returns an integer value unchanged exactly
when its decimal string representation has 13 characters, all digits
(equivalently, when the value lies in `[10^12, 10^13)`); every other
input — absent, zero, negative, shorter or longer — maps to absent.  No
checksum validation happens here: the checksum-invalid 13-digit value
1234567890123 is passed through unchanged even though the validation
engine rejects it. -/
theorem normalizar_cui_caracterizacion :
    (∀ d : Int, normalizar_cui (some d) =
      if (intDecimalChars d).length = 13 ∧ pyIsDigit (intDecimalChars d) = true then
        some d else none)
    ∧ (∀ d : Int,
        ((intDecimalChars d).length = 13 ∧ pyIsDigit (intDecimalChars d) = true) ↔
          ((10:Int)^12 ≤ d ∧ d < 10^13))
    ∧ normalizar_cui none = none
    ∧ normalizar_cui (some 1234567890123) = some 1234567890123
    ∧ (validar_cui (some 1234567890123)).1 = false := by
  refine ⟨?_, ?_, rfl, by decide, by decide⟩
  · intro d
    show (if d = 0 then none
        else
          let cui_str := stripChars (intDecimalChars d)
          if cui_str.length ≠ 13 || !pyIsDigit cui_str then none else some d) = _
    rw [stripChars_intDecimalChars]
    by_cases h0 : d = 0
    · subst h0
      norm_num [intDecimalChars, natDecimalChars, pyIsDigit]
    · rw [if_neg h0]
      by_cases hcond : (intDecimalChars d).length = 13 ∧ pyIsDigit (intDecimalChars d) = true
      · rw [if_pos hcond]
        obtain ⟨h1, h2⟩ := hcond
        simp [h1, h2]
      · rw [if_neg hcond]
        rcases Decidable.not_and_iff_or_not.mp hcond with h | h
        · simp [h]
        · simp only [Bool.not_eq_true] at h
          simp [h]
  · intro d
    by_cases hneg : d < 0
    · constructor
      · rintro ⟨h1, h2⟩
        exfalso
        unfold intDecimalChars at h2
        rw [if_pos hneg] at h2
        unfold pyIsDigit at h2
        simp at h2
      · rintro ⟨h1, h2⟩
        exfalso
        have hpos : (0:Int) < 10 ^ 12 := by positivity
        linarith
    · push_neg at hneg
      obtain ⟨n, rfl⟩ := Int.eq_ofNat_of_zero_le hneg
      rw [intDecimalChars_coe_nat]
      constructor
      · rintro ⟨h1, h2⟩
        have hne : n ≠ 0 := by
          rintro rfl
          simp [natDecimalChars] at h1
        rw [natDecimalChars_length hne] at h1
        have hr := (digits_len_eq_13_iff n).mp h1
        constructor
        · exact_mod_cast hr.1
        · exact_mod_cast hr.2
      · rintro ⟨h1, h2⟩
        have hn1 : 10 ^ 12 ≤ n := by exact_mod_cast h1
        have hn2 : n < 10 ^ 13 := by exact_mod_cast h2
        have hne : n ≠ 0 := by positivity
        have hlen : (Nat.digits 10 n).length = 13 := (digits_len_eq_13_iff n).mpr ⟨hn1, hn2⟩
        refine ⟨by rw [natDecimalChars_length hne, hlen], ?_⟩
        unfold pyIsDigit
        rw [Bool.and_eq_true]
        refine ⟨by simpa [List.isEmpty_iff] using natDecimalChars_ne_nil n, ?_⟩
        rw [List.all_eq_true]
        exact natDecimalChars_all_digits n

/-! ## Python truthiness helpers -/

/-- Python truthiness of an optional string: `None` and `""` are falsy. -/
def truthyStr : Option String → Bool
  | none => false
  | some s => s ≠ ""

/-- Python truthiness of an optional integer: `None` and `0` are falsy. -/
def truthyInt : Option Int → Bool
  | none => false
  | some n => n ≠ 0

/-! ## Scalar normalizers (normalizadores.py lines 21-73, 278-292) -/

/-- `normalizar_expediente(expediente, id_mysql)` (lines 21-29): `None` or
`0` synthesizes `"DUP-" + id`, otherwise `str(expediente)`. -/
def normalizar_expediente (expediente : Option Int) (id_mysql : Nat) : String :=
  match expediente with
  | none => "DUP-" ++ natStr id_mysql
  | some v => if v = 0 then "DUP-" ++ natStr id_mysql else intStr v

/-- `validar_expediente_duplicado(expediente)` (lines 31-33). -/
def validar_expediente_duplicado (expediente : Option Int) : Bool :=
  match expediente with
  | none => true
  | some v => v = 0

/-- `normalizar_sexo(sexo)` (lines 35-46): free text to the M/F/NF codes. -/
def normalizar_sexo (sexo : Option String) : String :=
  match sexo with
  | none => "NF"
  | some s =>
    if s = "" then "NF"
    else
      let s := pyUpper (pyStrip s)
      if s ∈ ["M", "MASCULINO", "HOMBRE"] then "M"
      else if s ∈ ["F", "FEMENINO", "MUJER"] then "F"
      else "NF"

/-- `normalizar_estado(estado)` (lines 48-57): free text to the V/F codes. -/
def normalizar_estado (estado : Option String) : String :=
  match estado with
  | none => "V"
  | some s =>
    if s = "" then "V"
    else
      let s := pyUpper (pyStrip s)
      if s ∈ ["F", "FALLECIDO", "MUERTO", "DEAD"] then "F"
      else "V"

/-- `normalizar_email(email)` (lines 59-73): trim, lowercase, and treat the
placeholder tokens as absent; otherwise pass through unvalidated. -/
def normalizar_email (email : Option String) : Option String :=
  match email with
  | none => none
  | some e0 =>
    if e0 = "" then none
    else
      let e := pyLower (pyStrip e0)
      if e = "" || e ∈ ["", "n/a", "na", "null", "none"] then none
      else some e

/-- `limpiar_telefono(telefono)` (lines 278-292): keep only digit
characters; absent when nothing remains. -/
def limpiar_telefono (telefono : Option String) : Option String :=
  match telefono with
  | none => none
  | some t =>
    if t = "" then none
    else
      let telefono_limpio := (t.data.filter Char.isDigit).asString
      if telefono_limpio = "" then none else some telefono_limpio

/-! ## Contact document (normalizadores.py lines 174-192) -/

/-- The address sub-document of the contact JSONB. -/
structure Direccion where
  linea1 : Option String
  municipio_id : Option Int
  departamento_id : Option Int
deriving Repr, DecidableEq

/-- The contact JSONB document. -/
structure Contacto where
  telefono_principal : Option String
  email : Option String
  direccion : Option Direccion
deriving Repr, DecidableEq

/-- `construir_contacto_jsonb(telefono, email, direccion, municipio, depto)`:
the email field is the output of `normalizar_email` (the source comment
asserts it will always be `None`), and the address sub-document is
present when any of its three constituents is truthy. -/
def construir_contacto_jsonb (telefono email direccion : Option String)
    (municipio depto : Option Int) : Contacto :=
  let email_normalizado := normalizar_email email
  { telefono_principal := telefono
    email := email_normalizado
    direccion :=
      if truthyStr direccion || truthyInt municipio || truthyInt depto then
        some ⟨direccion, municipio, depto⟩
      else none }

/-! ## Enumeration validators (validacion.py lines 212-220, 299-307) -/

/-- `ValidadorPaciente.validar_sexo(sexo)`: valid iff in the M/F/NF
enumeration. -/
def validar_sexo (sexo : String) : Bool × Option String :=
  if sexo ∉ ["M", "F", "NF"] then (false, some "Sexo debe ser uno de: M, F, NF")
  else (true, none)

/-- `ValidadorPaciente.validar_estado(estado)`: valid iff in the V/F
enumeration. -/
def validar_estado (estado : String) : Bool × Option String :=
  if estado ∉ ["V", "F"] then (false, some "Estado debe ser uno de: V, F")
  else (true, none)

/-! ## Claim C10: normalizers land in the validators' enumerations -/

/-- Claim C10.  `normalizar_sexo` always returns one of M, F, NF and
`normalizar_estado` one of V, F; consequently `validar_sexo` accepts
every output of `normalizar_sexo` and `validar_estado` every output of
`normalizar_estado`. -/
theorem normalizadores_en_enumeracion :
    ∀ s e : Option String,
      normalizar_sexo s ∈ ["M", "F", "NF"]
      ∧ (validar_sexo (normalizar_sexo s)).1 = true
      ∧ normalizar_estado e ∈ ["V", "F"]
      ∧ (validar_estado (normalizar_estado e)).1 = true := by
  intro s e
  have hs : normalizar_sexo s ∈ ["M", "F", "NF"] := by
    unfold normalizar_sexo
    rcases s with _ | s
    · simp
    · dsimp only
      split_ifs <;> simp
  have he : normalizar_estado e ∈ ["V", "F"] := by
    unfold normalizar_estado
    rcases e with _ | e
    · simp
    · dsimp only
      split_ifs <;> simp
  refine ⟨hs, ?_, he, ?_⟩
  · unfold validar_sexo
    rw [if_neg (not_not_intro hs)]
  · unfold validar_estado
    rw [if_neg (not_not_intro he)]

/-! ## Claim C2: the contact email field -/

/-- Claim C2 asserts the contact document's email is always absent; the
code instead stores the output of `normalizar_email`, which passes a
non-placeholder email through.  Evaluating the builder at such an input
exhibits a present email field, matching the source's own inline
comment (`# Siempre sera None`) being violated. -/
theorem construir_contacto_email_presente :
    (construir_contacto_jsonb none (some "user@example.com") none none none).email
      = some "user@example.com"
    ∧ normalizar_email (some "user@example.com") = some "user@example.com" := by
  refine ⟨by decide, by decide⟩

/-! ## `parsear_fecha_defuncion` (normalizadores.py lines 75-115)

`datetime.strptime` per directive: `%Y` consumes exactly four digits,
`%m` and `%d` consume one or two digits, literals must match, the whole
string must be consumed, and the resulting date must be a valid calendar
date (otherwise `ValueError`, caught by the source's loop).  Taking the
two digit characters greedily is equivalent to the CPython directive
regexes for whole-string matching: when two digits are present the
one-digit backtrack would leave a digit where a non-digit separator is
required, and out-of-range two-digit values fail the calendar check
exactly where the directive regex fails the literal match. -/

/-- Consume up to `n` leading digit characters. -/
def leeDigitos : List Char → Nat → (List Char × List Char)
  | l, 0 => ([], l)
  | [], _ + 1 => ([], [])
  | c :: rest, m + 1 =>
    if c.isDigit then
      let (ds, r) := leeDigitos rest m
      (c :: ds, r)
    else ([], c :: rest)

/-- Numeric value of a digit-character sequence. -/
def valorDigitos (ds : List Char) : Nat := ds.foldl (fun a c => a * 10 + charADigito c) 0

/-- A one-or-two digit field (`%m`, `%d`). -/
def leeCampo2 (l : List Char) : Option (Nat × List Char) :=
  let (ds, r) := leeDigitos l 2
  if ds.isEmpty then none else some (valorDigitos ds, r)

/-- An exactly-four-digit field (`%Y`). -/
def leeCampo4 (l : List Char) : Option (Nat × List Char) :=
  let (ds, r) := leeDigitos l 4
  if ds.length = 4 then some (valorDigitos ds, r) else none

/-- A literal separator character. -/
def leeLiteral (sep : Char) : List Char → Option (List Char)
  | [] => none
  | c :: rest => if c = sep then some rest else none

/-- `%Y sep %m sep %d` against the whole string. -/
def fmtYmd (sep : Char) (l : List Char) : Option Fecha := do
  let (y, r1) ← leeCampo4 l
  let r2 ← leeLiteral sep r1
  let (m, r3) ← leeCampo2 r2
  let r4 ← leeLiteral sep r3
  let (d, r5) ← leeCampo2 r4
  if r5.isEmpty then mkFecha y m d else none

/-- `%d sep %m sep %Y` against the whole string. -/
def fmtDmy (sep : Char) (l : List Char) : Option Fecha := do
  let (d, r1) ← leeCampo2 l
  let r2 ← leeLiteral sep r1
  let (m, r3) ← leeCampo2 r2
  let r4 ← leeLiteral sep r3
  let (y, r5) ← leeCampo4 r4
  if r5.isEmpty then mkFecha y m d else none

/-- The ordered format list of the source:
`['%Y-%m-%d', '%d/%m/%Y', '%Y/%m/%d', '%d-%m-%Y']`. -/
def formatos : List (List Char → Option Fecha) :=
  [fmtYmd '-', fmtDmy '/', fmtYmd '/', fmtDmy '-']

/-- The source's `for formato in formatos: try ... break except: continue`
loop: the first format that parses. -/
def primerExito : List (List Char → Option Fecha) → List Char → Option Fecha
  | [], _ => none
  | f :: fs, l =>
    match f l with
    | some d => some d
    | none => primerExito fs l

/-- `parsear_fecha_defuncion(fecha_str, hora)`: absent for an absent or
unparseable date; combined with the time when present, with midnight
otherwise.  (`datetime.combine` with a well-typed time never throws, so
the source's inner `except` branch is unreachable.) -/
def parsear_fecha_defuncion (fecha_str : Option String) (hora : Option Hora) : Option FechaHora :=
  match fecha_str with
  | none => none
  | some s =>
    if s = "" then none
    else
      let s := pyStrip s
      match primerExito formatos s.data with
      | none => none
      | some fecha_obj =>
        match hora with
        | some h => some ⟨fecha_obj, h⟩
        | none => some ⟨fecha_obj, ⟨0, 0, 0⟩⟩

/-- The claim's description of the reconciler, written independently:
take the first format of the ordered list that parses the trimmed date
string, return absent when the date is absent or no format matches, and
combine the parsed date with the given time, defaulting to midnight. -/
def reconcileDeathTimestampSpec (fecha_str : Option String) (hora : Option Hora) :
    Option FechaHora :=
  fecha_str.bind fun s =>
    ((formatos.filterMap (fun f => f (pyStrip s).data)).head?).map
      fun d => ⟨d, hora.getD ⟨0, 0, 0⟩⟩

/-- The try-each-format loop returns the first successful parse. -/
theorem primerExito_eq_head (fs : List (List Char → Option Fecha)) (l : List Char) :
    primerExito fs l = (fs.filterMap (fun f => f l)).head? := by
  induction fs with
  | nil => rfl
  | cons f fs ih =>
    unfold primerExito
    rw [List.filterMap_cons]
    cases h : f l with
    | none => simpa using ih
    | some d => simp

/-! ## Claim C7: death-timestamp reconciliation -/

/-- Claim C7.  `parsear_fecha_defuncion` agrees everywhere with the
specified reconciler (ordered formats `YYYY-MM-DD`, `DD/MM/YYYY`,
`YYYY/MM/DD`, `DD-MM-YYYY`, first match wins, absent on absent or
unparseable input, time defaulting to midnight); in particular
`('2024-01-15', 10:30:00)` parses by the first format and yields
2024-01-15 10:30, and a date alone is combined with midnight. -/
theorem parsear_fecha_defuncion_correcto :
    (∀ fecha_str hora,
      parsear_fecha_defuncion fecha_str hora = reconcileDeathTimestampSpec fecha_str hora)
    ∧ parsear_fecha_defuncion (some "2024-01-15") (some ⟨10, 30, 0⟩)
        = some ⟨⟨2024, 1, 15⟩, ⟨10, 30, 0⟩⟩
    ∧ parsear_fecha_defuncion (some "15/01/2024") none
        = some ⟨⟨2024, 1, 15⟩, ⟨0, 0, 0⟩⟩
    ∧ parsear_fecha_defuncion (some "31/04/2024") (some ⟨10, 30, 0⟩) = none := by
  refine ⟨?_, by decide, by decide, by decide⟩
  intro fecha_str hora
  cases fecha_str with
  | none => rfl
  | some s =>
    simp only [parsear_fecha_defuncion, reconcileDeathTimestampSpec, Option.some_bind]
    by_cases hs : s = ""
    · subst hs
      rw [if_pos rfl]
      rfl
    · rw [if_neg hs, ← primerExito_eq_head]
      cases primerExito formatos (pyStrip s).data with
      | none => rfl
      | some d => cases hora <;> rfl

/-! ## Name tokenizers and document builders (normalizadores.py lines 117-276) -/

/-- Python `str.split()` with no separator: split on whitespace runs,
discarding empty tokens. -/
def palabrasAux : List Char → List Char → List (List Char)
  | [], acc => if acc.isEmpty then [] else [acc.reverse]
  | c :: rest, acc =>
    if c.isWhitespace then
      if acc.isEmpty then palabrasAux rest []
      else acc.reverse :: palabrasAux rest []
    else palabrasAux rest (c :: acc)

/-- Whitespace tokens of a string.  The source first collapses internal
whitespace (`" ".join(s.strip().split())`) and then splits again, which
yields exactly the tokens of the original string. -/
def palabras (s : String) : List String := (palabrasAux s.data []).map List.asString

/-- Python `" ".join(l)`. -/
def unirEspacios : List String → String
  | [] => ""
  | [x] => x
  | x :: rest => x ++ " " ++ unirEspacios rest

/-- The dict returned by `extraer_nombres`. -/
structure NombresDict where
  primer_nombre : Option String
  segundo_nombre : Option String
  otros_nombres : Option String
deriving Repr, DecidableEq

/-- `extraer_nombres(nombre_completo)` (lines 117-141). -/
def extraer_nombres (nombre_completo : Option String) : NombresDict :=
  match nombre_completo with
  | none => ⟨none, none, none⟩
  | some s =>
    if s = "" then ⟨none, none, none⟩
    else
      match palabras s with
      | [] => ⟨none, none, none⟩
      | [a] => ⟨some a, none, none⟩
      | [a, b] => ⟨some a, some b, none⟩
      | a :: b :: rest => ⟨some a, some b, some (unirEspacios rest)⟩

/-- The dict returned by `extraer_apellidos`. -/
structure ApellidosDict where
  primer_apellido : Option String
  segundo_apellido : Option String
deriving Repr, DecidableEq

/-- `extraer_apellidos(apellido_completo)` (lines 143-157). -/
def extraer_apellidos (apellido_completo : Option String) : ApellidosDict :=
  match apellido_completo with
  | none => ⟨none, none⟩
  | some s =>
    if s = "" then ⟨none, none⟩
    else
      match palabras s with
      | [] => ⟨none, none⟩
      | [a] => ⟨some a, none⟩
      | a :: rest => ⟨some a, some (unirEspacios rest)⟩

/-- The name JSONB document. -/
structure Nombre where
  primer_nombre : Option String
  segundo_nombre : Option String
  otros_nombres : Option String
  primer_apellido : Option String
  segundo_apellido : Option String
  apellido_casada : Option String
deriving Repr, DecidableEq

/-- `construir_nombre_jsonb(nombre, apellido, conyugue)` (lines 159-172). -/
def construir_nombre_jsonb (nombre apellido conyugue : Option String) : Nombre :=
  let nombres := extraer_nombres nombre
  let apellidos := extraer_apellidos apellido
  { primer_nombre := nombres.primer_nombre
    segundo_nombre := nombres.segundo_nombre
    otros_nombres := nombres.otros_nombres
    primer_apellido := apellidos.primer_apellido
    segundo_apellido := apellidos.segundo_apellido
    apellido_casada := if truthyStr conyugue then conyugue else none }

/-- Value stored in the `es_gemelo` field: the Python expression
`gemelo and gemelo.upper() in (...)` yields the falsy string itself when
`gemelo` is the empty string, and a boolean otherwise. -/
inductive GemeloVal
  | b (v : Bool)
  | s (v : String)
deriving Repr, DecidableEq

/-- The responsible-party sub-document of the references JSONB. -/
structure Responsable where
  nombre : Option String
  parentesco_id : Option Int
  cui : Option Int
  telefono : Option Int
  expediente : Option Int
deriving Repr, DecidableEq

/-- The references JSONB document. -/
structure Referencias where
  padre : Option String
  madre : Option String
  expediente_madre : Option Int
  responsable : Option Responsable
  conyugue : Option String
  es_gemelo : Option GemeloVal
deriving Repr, DecidableEq

/-- `construir_referencias_jsonb(...)` (lines 194-224). -/
def construir_referencias_jsonb (padre madre : Option String) (exp_madre : Option Int)
    (responsable : Option String) (parentesco dpi_responsable telefono_responsable exp_ref : Option Int)
    (conyugue gemelo : Option String) : Referencias :=
  let cui_responsable := normalizar_cui dpi_responsable
  { padre := padre
    madre := madre
    expediente_madre := exp_madre
    responsable :=
      if truthyStr responsable then
        some ⟨responsable, parentesco, cui_responsable, telefono_responsable, exp_ref⟩
      else none
    conyugue := conyugue
    es_gemelo :=
      match gemelo with
      | none => none
      | some g =>
        if g = "" then some (.s "")
        else some (.b (pyUpper g ∈ ["SI", "S", "YES", "Y", "1"])) }

/-- The demographics sub-document of the extra-data JSONB. -/
structure Demograficos where
  nacionalidad_id : Option Int
  departamento_nacimiento_id : Option Int
  lugar_nacimiento_id : Option Int
  estado_civil_id : Option Int
  pueblo_id : Option Int
  idioma_id : Option Int
deriving Repr, DecidableEq

/-- The socioeconomic sub-document of the extra-data JSONB. -/
structure Socioeconomicos where
  educacion_id : Option Int
  ocupacion : Option String
deriving Repr, DecidableEq

/-- The death sub-document of the extra-data JSONB. -/
structure Defuncion where
  fecha_hora : Option String
deriving Repr, DecidableEq

/-- The extra-data JSONB document. -/
structure DatosExtra where
  demograficos : Demograficos
  socioeconomicos : Socioeconomicos
  defuncion : Option Defuncion
deriving Repr, DecidableEq

/-- Zero-padded two-digit rendering. -/
def pad2 (n : Nat) : String := if n < 10 then "0" ++ natStr n else natStr n

/-- Zero-padded four-digit rendering. -/
def pad4 (n : Nat) : String :=
  if n < 10 then "000" ++ natStr n
  else if n < 100 then "00" ++ natStr n
  else if n < 1000 then "0" ++ natStr n
  else natStr n

/-- `datetime.isoformat()` for a whole-second datetime. -/
def FechaHora.iso (dt : FechaHora) : String :=
  pad4 dt.fecha.year ++ "-" ++ pad2 dt.fecha.month ++ "-" ++ pad2 dt.fecha.day ++ "T" ++
    pad2 dt.hora.hour ++ ":" ++ pad2 dt.hora.minute ++ ":" ++ pad2 dt.hora.second

/-- `construir_datos_extra_jsonb(...)` (lines 226-259). -/
def construir_datos_extra_jsonb
    (nacionalidad depto_nac lugar_nacimiento estado_civil educacion pueblo idioma : Option Int)
    (ocupacion : Option String) (fecha_defuncion : Option String) (hora_defuncion : Option Hora) :
    DatosExtra :=
  let fecha_hora_defuncion := parsear_fecha_defuncion fecha_defuncion hora_defuncion
  { demograficos := ⟨nacionalidad, depto_nac, lugar_nacimiento, estado_civil, pueblo, idioma⟩
    socioeconomicos := ⟨educacion, ocupacion⟩
    defuncion :=
      match fecha_hora_defuncion with
      | some dt => some ⟨some dt.iso⟩
      | none => none }

/-- The system-metadata JSONB document. -/
structure Metadatos where
  sistema_origen : String
  id_origen : Nat
  creado_por : Option String
  migrado_en : String
  version_migracion : String
  expediente_duplicado : Bool
  notas : Option String
deriving Repr, DecidableEq

/-- `construir_metadatos_jsonb(id_mysql, created_by, expediente_duplicado)`
(lines 261-276); `nowStr` stands for `datetime.now().isoformat()`. -/
def construir_metadatos_jsonb (nowStr : String) (id_mysql : Nat) (created_by : Option String)
    (expediente_duplicado : Bool) : Metadatos :=
  { sistema_origen := "mysql_legacy"
    id_origen := id_mysql
    creado_por := created_by
    migrado_en := nowStr
    version_migracion := "1.0"
    expediente_duplicado := expediente_duplicado
    notas := if expediente_duplicado then some "Expediente marcado como duplicado o nulo" else none }

/-! ## Migration service (services/migracion/pacientes.py) -/

/-- The legacy MySQL patient row (`app/models/mysql/paciente.py`), as read
by the migration service. -/
structure PacienteMysql where
  id : Nat
  expediente : Option Int
  dpi : Option Int
  pasaporte : Option String
  nombre : Option String
  apellido : Option String
  sexo : Option String
  nacimiento : Option Fecha
  nacionalidad : Option Int
  depto_nac : Option Int
  lugar_nacimiento : Option Int
  estado_civil : Option Int
  educacion : Option Int
  pueblo : Option Int
  idioma : Option Int
  ocupacion : Option String
  direccion : Option String
  municipio : Option Int
  depto : Option Int
  telefono : Option String
  email : Option String
  padre : Option String
  madre : Option String
  exp_madre : Option Int
  responsable : Option String
  parentesco : Option Int
  dpi_responsable : Option Int
  telefono_responsable : Option Int
  exp_ref : Option Int
  conyugue : Option String
  gemelo : Option String
  estado : Option String
  fechaDefuncion : Option String
  hora_defuncion : Option Hora
  created_by : Option String
  created_at : Option FechaHora
  update_at : Option FechaHora
deriving Repr, DecidableEq

/-- The `datos_postgres` dict built by `transformar_paciente`
(pacientes.py lines 70-137). -/
structure DatosPostgres where
  expediente : String
  cui : Option Int
  pasaporte : Option String
  nombre : Nombre
  sexo : String
  fecha_nacimiento : Option Fecha
  contacto : Contacto
  referencias : Referencias
  datos_extra : DatosExtra
  estado : String
  metadatos : Metadatos
  creado_en : Option FechaHora
  actualizado_en : Option FechaHora
deriving Repr, DecidableEq

/-- A warning entry appended to `self.advertencias`. -/
structure Advertencia where
  id_mysql : Nat
  expediente : Option Int
  tipo : String
  mensaje : String
  timestamp : String
deriving Repr, DecidableEq

/-- An entry of `self.errores`: record-level (id, expediente, error, tipo)
or batch-level (batch offset, error, tipo). -/
inductive ErrorEntry
  | record (id_mysql : Nat) (expediente : Option Int) (error : String) (tipo : String)
      (timestamp : String)
  | lote (batch : Nat) (error : String) (tipo : String) (timestamp : String)
deriving Repr, DecidableEq

/-- The mutable state of `MigracionPacientesService`. -/
structure ServicioMigracion where
  batch_size : Nat
  errores : List ErrorEntry
  advertencias : List Advertencia
  exitosos : Nat
  duplicados : Nat
  cui_invalidos : Nat
deriving Repr, DecidableEq

/-- A freshly constructed service (`__init__`, default batch size 100). -/
def servicioInicial (batch_size : Nat) : ServicioMigracion :=
  ⟨batch_size, [], [], 0, 0, 0⟩

/-- `transformar_paciente(paciente_mysql)` (pacientes.py lines 36-149):
counts and warns on an invalid national id, counts duplicate record
numbers, and assembles the transformed record.  Every operation in the
body is total, so the `except` branch that would return `None` is
unreachable; the result is always present. -/
def transformar_paciente (nowStr : String) (svc : ServicioMigracion) (p : PacienteMysql) :
    ServicioMigracion × Option DatosPostgres :=
  let cui := normalizar_cui p.dpi
  let svc :=
    if cui.isNone && p.dpi.isSome then
      { svc with
        cui_invalidos := svc.cui_invalidos + 1
        advertencias := svc.advertencias ++
          [⟨p.id, p.expediente, "CUI_INVALIDO",
            "CUI/DPI invalido: " ++ ((p.dpi.map intStr).getD "None"), nowStr⟩] }
    else svc
  let es_duplicado := validar_expediente_duplicado p.expediente
  let svc := if es_duplicado then { svc with duplicados := svc.duplicados + 1 } else svc
  let expediente_normalizado := normalizar_expediente p.expediente p.id
  let datos_postgres : DatosPostgres :=
    { expediente := expediente_normalizado
      cui := cui
      pasaporte := p.pasaporte
      nombre := construir_nombre_jsonb p.nombre p.apellido p.conyugue
      sexo := normalizar_sexo p.sexo
      fecha_nacimiento := p.nacimiento
      contacto := construir_contacto_jsonb (limpiar_telefono p.telefono) p.email
        p.direccion p.municipio p.depto
      referencias := construir_referencias_jsonb p.padre p.madre p.exp_madre
        p.responsable p.parentesco p.dpi_responsable p.telefono_responsable p.exp_ref
        p.conyugue p.gemelo
      datos_extra := construir_datos_extra_jsonb p.nacionalidad p.depto_nac
        p.lugar_nacimiento p.estado_civil p.educacion p.pueblo p.idioma p.ocupacion
        p.fechaDefuncion p.hora_defuncion
      estado := normalizar_estado p.estado
      metadatos := construir_metadatos_jsonb nowStr p.id p.created_by es_duplicado
      creado_en := p.created_at
      actualizado_en := p.update_at }
  (svc, some datos_postgres)

/-- The result dict of `migrar_batch`. -/
structure ResultadoBatch where
  procesados : Nat
  exitosos : Nat
  errores : Nat
  offset_siguiente : Option Nat
  mensaje : Option String
deriving Repr, DecidableEq

/-- The per-record loop of `migrar_batch` (lines 182-201): transform each
record, add it to the session and bump the success counters; a `None`
transform would bump the error counter.  `PacientePostgres(**datos)`
is a constructor call with fixed matching keyword arguments, modelled
as never raising, so the `INSERT_ERROR` branch is unreachable. -/
def buclePacientes (nowStr : String) :
    ServicioMigracion → List PacienteMysql → Nat → Nat → ServicioMigracion × Nat × Nat
  | svc, [], batch_exitosos, batch_errores => (svc, batch_exitosos, batch_errores)
  | svc, p :: rest, batch_exitosos, batch_errores =>
    match transformar_paciente nowStr svc p with
    | (svc1, some _) =>
      buclePacientes nowStr { svc1 with exitosos := svc1.exitosos + 1 } rest
        (batch_exitosos + 1) batch_errores
    | (svc1, none) => buclePacientes nowStr svc1 rest batch_exitosos (batch_errores + 1)

/-- `migrar_batch(offset)` (lines 151-226).  The fetched page and the
commit outcome of the sink are passed in explicitly (`commitError`
carries the exception text of a failed commit; persistence mechanics
are external collaborators).  An empty page returns the zero result
untouched; a failed commit rolls back, records a batch-level
`COMMIT_ERROR` entry and reports the whole batch failed. -/
def migrar_batch (nowStr : String) (svc : ServicioMigracion) (offset : Nat)
    (pagina : List PacienteMysql) (commitError : Option String) :
    ServicioMigracion × ResultadoBatch :=
  if pagina.isEmpty then
    (svc, ⟨0, 0, 0, none, some "No hay mas registros"⟩)
  else
    let paso := buclePacientes nowStr svc pagina 0 0
    match commitError with
    | some e =>
      ({ paso.1 with
          errores := paso.1.errores ++
            [.lote offset ("Error en commit del batch: " ++ e) "COMMIT_ERROR" nowStr] },
       ⟨pagina.length, 0, pagina.length, some (offset + svc.batch_size), none⟩)
    | none =>
      (paso.1, ⟨pagina.length, paso.2.1, paso.2.2, some (offset + svc.batch_size), none⟩)

/-! ## Claims about the batch loop (C4, C5, C8, C9) -/

/-- `transformar_paciente` never touches the error list. -/
theorem transformar_paciente_errores (nowStr : String) (svc : ServicioMigracion)
    (p : PacienteMysql) : (transformar_paciente nowStr svc p).1.errores = svc.errores := by
  unfold transformar_paciente
  dsimp only
  split_ifs <;> rfl

/-- `transformar_paciente` always succeeds, its record number is the
normalized record number. -/
theorem transformar_paciente_resultado (nowStr : String) (svc : ServicioMigracion)
    (p : PacienteMysql) :
    ∃ d, (transformar_paciente nowStr svc p).2 = some d
      ∧ d.expediente = normalizar_expediente p.expediente p.id
      ∧ d.cui = normalizar_cui p.dpi := by
  unfold transformar_paciente
  dsimp only
  exact ⟨_, rfl, rfl, rfl⟩

/-- The per-record loop never touches the error list. -/
theorem buclePacientes_errores (nowStr : String) :
    ∀ (l : List PacienteMysql) (svc : ServicioMigracion) (be berr : Nat),
      (buclePacientes nowStr svc l be berr).1.errores = svc.errores := by
  intro l
  induction l with
  | nil => intro svc be berr; rfl
  | cons p rest ih =>
    intro svc be berr
    obtain ⟨d, hd, -⟩ := transformar_paciente_resultado nowStr svc p
    have herr := transformar_paciente_errores nowStr svc p
    unfold buclePacientes
    rcases hp : transformar_paciente nowStr svc p with ⟨svc1, od⟩
    rw [hp] at hd herr
    cases od with
    | none => simp at hd
    | some d' =>
      dsimp only
      rw [ih]
      exact herr

/-- String rendering of a natural is never empty. -/
theorem natStr_ne_empty (n : Nat) : natStr n ≠ "" := by
  unfold natStr
  intro h
  have : natDecimalChars n = [] := by
    have := congrArg String.data h
    simpa [List.asString] using this
  exact natDecimalChars_ne_nil n this

/-- String rendering of an integer is never empty. -/
theorem intStr_ne_empty (i : Int) : intStr i ≠ "" := by
  unfold intStr
  intro h
  have hd : intDecimalChars i = [] := by
    have := congrArg String.data h
    simpa [List.asString] using this
  unfold intDecimalChars at hd
  split at hd
  · exact List.cons_ne_nil _ _ hd
  · exact natDecimalChars_ne_nil _ hd

/-! ## Claim C8: record-number synthesis guarantees an identifier -/

/-- Claim C8.  Record-number normalization always yields a non-empty
string: the synthesized `"DUP-" + id` for an absent or zero legacy
record number (flagged as duplicate), the decimal rendering otherwise;
hence every transformed record carries a non-empty record number, so at
least one of its identifiers is non-empty. -/
theorem normalizar_expediente_no_vacio :
    (∀ (e : Option Int) (id_mysql : Nat), normalizar_expediente e id_mysql ≠ "")
    ∧ normalizar_expediente none 77 = "DUP-77"
    ∧ validar_expediente_duplicado none = true
    ∧ normalizar_expediente (some 0) 88 = "DUP-88"
    ∧ validar_expediente_duplicado (some 0) = true
    ∧ normalizar_expediente (some 12345) 1 = "12345"
    ∧ (∀ (nowStr : String) (svc : ServicioMigracion) (p : PacienteMysql),
        ∃ d, (transformar_paciente nowStr svc p).2 = some d ∧ d.expediente ≠ "") := by
  have hne : ∀ (e : Option Int) (id_mysql : Nat), normalizar_expediente e id_mysql ≠ "" := by
    intro e id_mysql
    unfold normalizar_expediente
    have hdup : "DUP-" ++ natStr id_mysql ≠ "" := by
      intro h
      have hlen := congrArg String.length h
      rw [String.length_append] at hlen
      have h4 : "DUP-".length = 4 := rfl
      have h0 : ("" : String).length = 0 := rfl
      rw [h4, h0] at hlen
      omega
    rcases e with _ | v
    · exact hdup
    · dsimp only
      split_ifs
      · exact hdup
      · exact intStr_ne_empty v
  refine ⟨hne, by decide, rfl, by decide, rfl, by decide, ?_⟩
  intro nowStr svc p
  obtain ⟨d, hd, hexp, -⟩ := transformar_paciente_resultado nowStr svc p
  exact ⟨d, hd, hexp ▸ hne p.expediente p.id⟩

/-! ## Claim C9: an empty source page is a no-op -/

/-- Claim C9.  `migrar_batch` on an empty page reports zero processed
records with the exhaustion message and leaves the whole service state —
every counter and both lists — unchanged. -/
theorem migrar_batch_pagina_vacia :
    ∀ (nowStr : String) (svc : ServicioMigracion) (offset : Nat) (commitError : Option String),
      (migrar_batch nowStr svc offset [] commitError).2 =
        ⟨0, 0, 0, none, some "No hay mas registros"⟩
      ∧ (migrar_batch nowStr svc offset [] commitError).1 = svc := by
  intro nowStr svc offset commitError
  exact ⟨rfl, rfl⟩

/-! ## Claim C5: commit failure fails the whole batch -/

/-- Claim C5.  When the commit of a non-empty batch fails, `migrar_batch`
reports the whole batch failed — `exitosos = 0`, `errores = procesados =
page length` — appends exactly one batch-level `COMMIT_ERROR` entry
keyed by the batch offset, and still returns the next offset with a
non-zero processed count, so the driving loop proceeds to the next
batch instead of aborting. -/
theorem migrar_batch_commit_fallido :
    ∀ (nowStr : String) (svc : ServicioMigracion) (offset : Nat)
      (pagina : List PacienteMysql) (e : String), pagina ≠ [] →
      (migrar_batch nowStr svc offset pagina (some e)).2 =
        ⟨pagina.length, 0, pagina.length, some (offset + svc.batch_size), none⟩
      ∧ (migrar_batch nowStr svc offset pagina (some e)).1.errores =
          svc.errores ++
            [.lote offset ("Error en commit del batch: " ++ e) "COMMIT_ERROR" nowStr]
      ∧ (migrar_batch nowStr svc offset pagina (some e)).2.procesados ≠ 0 := by
  intro nowStr svc offset pagina e hne
  have hemp : pagina.isEmpty = false := by
    cases pagina with
    | nil => exact absurd rfl hne
    | cons a l => rfl
  simp only [migrar_batch, hemp, Bool.false_eq_true, if_false]
  refine ⟨trivial, ?_, ?_⟩
  · rw [buclePacientes_errores]
  · simpa using hne

/-- Witness for C5 at a concrete one-record page and commit error. -/
theorem migrar_batch_commit_fallido_witness :
    (migrar_batch "T" (servicioInicial 100) 0
        [{ id := 1, expediente := some 5001, dpi := none, pasaporte := none, nombre := none,
           apellido := none, sexo := none, nacimiento := none, nacionalidad := none,
           depto_nac := none, lugar_nacimiento := none, estado_civil := none, educacion := none,
           pueblo := none, idioma := none, ocupacion := none, direccion := none,
           municipio := none, depto := none, telefono := none, email := none, padre := none,
           madre := none, exp_madre := none, responsable := none, parentesco := none,
           dpi_responsable := none, telefono_responsable := none, exp_ref := none,
           conyugue := none, gemelo := none, estado := none, fechaDefuncion := none,
           hora_defuncion := none, created_by := none, created_at := none, update_at := none }]
        (some "duplicate key")).2 =
      ⟨1, 0, 1, some 100, none⟩ := by
  exact (migrar_batch_commit_fallido "T" (servicioInicial 100) 0 _ "duplicate key"
    (by decide)).1

/-! ## Claim C4: a batch with one structurally valid and one invalid-dpi record -/

/-- A structurally valid legacy record (13-digit dpi, present record
number). -/
def pacienteValido : PacienteMysql :=
  { id := 1, expediente := some 5001, dpi := some 1234567890123, pasaporte := none,
    nombre := some "Juan", apellido := some "Perez", sexo := some "M", nacimiento := none,
    nacionalidad := none, depto_nac := none, lugar_nacimiento := none, estado_civil := none,
    educacion := none, pueblo := none, idioma := none, ocupacion := none, direccion := none,
    municipio := none, depto := none, telefono := none, email := none, padre := none,
    madre := none, exp_madre := none, responsable := none, parentesco := none,
    dpi_responsable := none, telefono_responsable := none, exp_ref := none, conyugue := none,
    gemelo := none, estado := none, fechaDefuncion := none, hora_defuncion := none,
    created_by := none, created_at := none, update_at := none }

/-- A legacy record whose national id has only 9 digits. -/
def pacienteCuiInvalido : PacienteMysql :=
  { id := 2, expediente := some 5002, dpi := some 123456789, pasaporte := none,
    nombre := some "Ana", apellido := some "Lopez", sexo := some "F", nacimiento := none,
    nacionalidad := none, depto_nac := none, lugar_nacimiento := none, estado_civil := none,
    educacion := none, pueblo := none, idioma := none, ocupacion := none, direccion := none,
    municipio := none, depto := none, telefono := none, email := none, padre := none,
    madre := none, exp_madre := none, responsable := none, parentesco := none,
    dpi_responsable := none, telefono_responsable := none, exp_ref := none, conyugue := none,
    gemelo := none, estado := none, fechaDefuncion := none, hora_defuncion := none,
    created_by := none, created_at := none, update_at := none }

/-- Counterexample to claim C4 as stated: the claim demands
`succeeded == 1` for this two-record batch, but the service migrates the
invalid-dpi record as well (only its national id is dropped, with a
warning), so the batch reports 2 successes. -/
theorem migrar_batch_lote_mixto_contraejemplo :
    (migrar_batch "T" (servicioInicial 100) 0 [pacienteValido, pacienteCuiInvalido] none).2.exitosos
        = 2
    ∧ ¬ (migrar_batch "T" (servicioInicial 100) 0
          [pacienteValido, pacienteCuiInvalido] none).2.exitosos = 1 := by
  exact ⟨by decide, by decide⟩

/-- Claim C4 amended: for a page with one structurally valid record and
one whose dpi has 9 digits, `migrar_batch` reports both records
processed and succeeded (`exitosos = 2`, no per-record errors), records
exactly one warning of type `CUI_INVALIDO`, drops the invalid record's
national id (its cui is absent in the transformed record) and passes
its record number through per the record-number rule. -/
theorem migrar_batch_lote_mixto :
    (migrar_batch "T" (servicioInicial 100) 0 [pacienteValido, pacienteCuiInvalido] none).2 =
      ⟨2, 2, 0, some 100, none⟩
    ∧ (migrar_batch "T" (servicioInicial 100) 0
          [pacienteValido, pacienteCuiInvalido] none).1.advertencias =
        [⟨2, some 5002, "CUI_INVALIDO", "CUI/DPI invalido: 123456789", "T"⟩]
    ∧ (migrar_batch "T" (servicioInicial 100) 0
          [pacienteValido, pacienteCuiInvalido] none).1.cui_invalidos = 1
    ∧ (migrar_batch "T" (servicioInicial 100) 0
          [pacienteValido, pacienteCuiInvalido] none).1.errores = []
    ∧ ((transformar_paciente "T" (servicioInicial 100) pacienteCuiInvalido).2.map
          DatosPostgres.cui) = some none
    ∧ ((transformar_paciente "T" (servicioInicial 100) pacienteCuiInvalido).2.map
          DatosPostgres.expediente) = some "5002"
    ∧ ((transformar_paciente "T" (servicioInicial 100) pacienteValido).2.map
          DatosPostgres.cui) = some (some 1234567890123) := by
  refine ⟨by decide, by decide, by decide, by decide, by decide, by decide, by decide⟩

/-! ## Validation engine (validacion.py lines 100-483) -/

/-- `str.startswith` via character-list prefix. -/
def pyStartsWith (pre s : String) : Bool := pre.data.isPrefixOf s.data

/-- `ValidadorPaciente.validar_pasaporte` (lines 100-115). -/
def validar_pasaporte (pasaporte : Option String) : Bool × Option String :=
  match pasaporte with
  | none => (true, none)
  | some p0 =>
    if p0 = "" then (true, none)
    else
      let p := pyStrip p0
      if p.length > 50 then (false, some "Pasaporte muy largo (max 50)")
      else if !(p.data.any Char.isAlpha) || !(p.data.any Char.isDigit) then
        (false, some "Pasaporte debe contener letras y numeros")
      else (true, none)

/-- `ValidadorPaciente.validar_expediente` (lines 117-136). -/
def validar_expediente (expediente : Option String) : Bool × Option String :=
  match expediente with
  | none => (false, some "Expediente es requerido")
  | some e0 =>
    if e0 = "" then (false, some "Expediente es requerido")
    else
      let e := pyStrip e0
      if e.length > 20 then (false, some "Expediente muy largo (max 20)")
      else if pyStartsWith "DUP-" e then (true, none)
      else if !pyIsDigit e.data then
        (false, some "Expediente debe ser numerico o formato DUP-id")
      else (true, none)

/-- `ValidadorPaciente.validar_identificadores` (lines 138-170): collects
the three identifier errors and fails only when all three validators
fail. -/
def validar_identificadores (expediente : Option String) (cui : Option Int)
    (pasaporte : Option String) : Bool × List String :=
  let r_exp := validar_expediente expediente
  let r_cui := validar_cui cui
  let r_pass := validar_pasaporte pasaporte
  let errores :=
    (if !r_exp.1 then [r_exp.2.getD ""] else []) ++
    (if !r_cui.1 then [r_cui.2.getD ""] else []) ++
    (if !r_pass.1 then [r_pass.2.getD ""] else [])
  if !(r_exp.1 || r_cui.1 || r_pass.1) then
    (false, errores ++ ["Debe proporcionar al menos un identificador valido"])
  else (true, errores)

/-- The character class of the name regex
`[a-zA-Z aeiou-accented nNuU \s ' -]` (Python `\s` modelled as ASCII
whitespace). -/
def caracterNombreValido (c : Char) : Bool :=
  ('a' ≤ c && c ≤ 'z') || ('A' ≤ c && c ≤ 'Z') ||
  c ∈ "áéíóúÁÉÍÓÚñÑüÜ".data || c.isWhitespace || c = Char.ofNat 39 || c = '-'

/-- The `.items()` view of the name dict, in its insertion order. -/
def Nombre.items (n : Nombre) : List (String × Option String) :=
  [("primer_nombre", n.primer_nombre), ("segundo_nombre", n.segundo_nombre),
   ("otros_nombres", n.otros_nombres), ("primer_apellido", n.primer_apellido),
   ("segundo_apellido", n.segundo_apellido), ("apellido_casada", n.apellido_casada)]

/-- `ValidadorPaciente.validar_nombre_jsonb` (lines 172-210): required
first name and first surname, then per-field length and character-class
checks on every truthy string value (`re.match` of an anchored
one-or-more pattern: non-empty and every character in the class). -/
def validar_nombre_jsonb (nombre : Nombre) : Bool × List String :=
  let errores_requeridos :=
    (if !truthyStr nombre.primer_nombre then ["primer_nombre es requerido"] else []) ++
    (if !truthyStr nombre.primer_apellido then ["primer_apellido es requerido"] else [])
  let chequeo := fun (par : String × Option String) =>
    match par.2 with
    | none => []
    | some v =>
      if v = "" then []
      else
        (if v.length > 100 then [par.1 ++ " muy largo (max 100)"] else []) ++
        (if !(v.data.all caracterNombreValido) then
          [par.1 ++ " contiene caracteres invalidos"] else [])
  let errores := errores_requeridos ++ (nombre.items.map chequeo).flatten
  (errores.isEmpty, errores)

/-- `ValidadorPaciente.validar_fecha_nacimiento` (lines 222-241), with the
clock reading `hoy` passed in.  (`date(hoy.year-150, hoy.month, hoy.day)`
is formed without the constructor's validity check, which the source
relies on as well.) -/
def validar_fecha_nacimiento (hoy : Fecha) (fecha : Option Fecha) : Bool × Option String :=
  match fecha with
  | none => (true, none)
  | some f =>
    if hoy.lt f then (false, some "Fecha de nacimiento no puede ser futura")
    else
      let fecha_minima : Fecha := ⟨hoy.year - 150, hoy.month, hoy.day⟩
      if f.lt fecha_minima then (false, some "Fecha de nacimiento muy antigua (max 150)")
      else (true, none)

/-- Recognizer of the anchored email pattern
`[a-zA-Z0-9._%+-]+ @ [a-zA-Z0-9.-]+ . [a-zA-Z]{2,}`: the local part has
no `@`, the top-level label is the all-alphabetic suffix after the last
dot (length at least 2), and the remaining domain characters lie in the
domain class with at least one character before that last dot. -/
def emailRegexMatch (s : String) : Bool :=
  match s.data.splitOn '@' with
  | [localp, dom] =>
    (!localp.isEmpty &&
      localp.all (fun c => c.isAlphanum || c ∈ ['.', '_', '%', '+', '-'])) &&
    (match dom.splitOn '.' with
     | [] => false
     | ps =>
       if ps.length < 2 then false
       else
         let tld := ps.getLastD []
         let dparts := ps.dropLast
         (decide (2 ≤ tld.length) && tld.all Char.isAlpha) &&
         (decide (2 ≤ dparts.length) || dparts.any (fun p => !p.isEmpty)) &&
         dparts.all (fun p => p.all (fun c => c.isAlphanum || c = '-')))
  | _ => false

/-- `ValidadorPaciente.validar_contacto_jsonb` (lines 255-297). -/
def validar_contacto_jsonb (contacto : Option Contacto) : Bool × List String :=
  match contacto with
  | none => (true, [])
  | some c =>
    let e1 :=
      match c.telefono_principal with
      | some t => if t ≠ "" && t.length > 20 then ["Telefono muy largo (max 20)"] else []
      | none => []
    let e2 :=
      match c.email with
      | some em => if em ≠ "" && !emailRegexMatch em then ["Formato de email invalido"] else []
      | none => []
    let e3 :=
      match c.direccion with
      | some d => if !truthyStr d.linea1 then ["Direccion debe incluir al menos linea1"] else []
      | none => []
    let errores := e1 ++ e2 ++ e3
    (errores.isEmpty, errores)

/-- `ValidadorPaciente.validar_referencias_jsonb` (lines 309-354): the
responsible party's truthy national id is re-validated with the
checksum validator, and a non-boolean truthiness value in `es_gemelo`
(the leftover empty string) is rejected. -/
def validar_referencias_jsonb (referencias : Option Referencias) : Bool × List String :=
  match referencias with
  | none => (true, [])
  | some r =>
    let e1 :=
      match r.responsable with
      | some resp =>
        match resp.cui with
        | some c =>
          if c ≠ 0 then
            (let rc := validar_cui (some c)
             if !rc.1 then ["CUI del responsable: " ++ rc.2.getD ""] else [])
          else []
        | none => []
      | none => []
    let e2 :=
      match r.es_gemelo with
      | some (.s _) => ["es_gemelo debe ser true o false"]
      | _ => []
    let errores := e1 ++ e2
    (errores.isEmpty, errores)

/-- Strict two-digit field for `datetime.fromisoformat`. -/
def leeCampo2Estricto (l : List Char) : Option (Nat × List Char) :=
  let (ds, r) := leeDigitos l 2
  if ds.length = 2 then some (valorDigitos ds, r) else none

/-- `datetime.fromisoformat`: `YYYY-MM-DD`, optionally followed by a
separator and `HH:MM` or `HH:MM:SS` (fractional seconds not modelled —
no claim depends on them). -/
def parseIsoFechaHora (s : String) : Option FechaHora := do
  let l := s.data
  let (y, r1) ← leeCampo4 l
  let r2 ← leeLiteral '-' r1
  let (mo, r3) ← leeCampo2Estricto r2
  let r4 ← leeLiteral '-' r3
  let (d, r5) ← leeCampo2Estricto r4
  let f ← mkFecha y mo d
  match r5 with
  | [] => some ⟨f, ⟨0, 0, 0⟩⟩
  | sep :: rest =>
    if sep = 'T' || sep = ' ' then do
      let (h, t1) ← leeCampo2Estricto rest
      let t2 ← leeLiteral ':' t1
      let (mi, t3) ← leeCampo2Estricto t2
      match t3 with
      | [] => if h < 24 && mi < 60 then some ⟨f, ⟨h, mi, 0⟩⟩ else none
      | c :: t4 =>
        if c = ':' then do
          let (sec, t5) ← leeCampo2Estricto t4
          if t5.isEmpty && h < 24 && mi < 60 && sec < 60 then some ⟨f, ⟨h, mi, sec⟩⟩
          else none
        else none
    else none

/-- `ValidadorPaciente.validar_datos_extra_jsonb` (lines 356-405), with
the clock reading `now` passed in: a present death timestamp must parse
as ISO and must not be in the future. -/
def validar_datos_extra_jsonb (now : FechaHora) (datos_extra : Option DatosExtra) :
    Bool × List String :=
  match datos_extra with
  | none => (true, [])
  | some de =>
    let errores :=
      match de.defuncion with
      | some d =>
        match d.fecha_hora with
        | some fh =>
          if fh ≠ "" then
            match parseIsoFechaHora fh with
            | none => ["Formato de fecha_hora de defuncion invalido"]
            | some fecha_def =>
              if now.lt fecha_def then ["Fecha de defuncion no puede ser futura"] else []
          else []
        | none => []
      | none => []
    (errores.isEmpty, errores)

/-- Python dict assignment `m[k] = v` on an insertion-ordered dict:
replace in place when the key exists, append otherwise. -/
def dictSet (m : List (String × List String)) (k : String) (v : List String) :
    List (String × List String) :=
  if m.any (fun par => par.1 = k) then
    m.map (fun par => if par.1 = k then (k, v) else par)
  else m ++ [(k, v)]

/-- Python truthiness of `datos_extra and datos_extra.get("defuncion")`:
both the extra-data document and its death sub-document are present. -/
def tieneDefuncion : Option DatosExtra → Bool
  | none => false
  | some de => de.defuncion.isSome

/-- `ValidadorPaciente.validar_paciente_completo` (lines 407-483): runs
every group validator, accumulating failures per field-group key, then
applies the business rule — a deceased patient without a death
sub-document overwrites the `estado` key with a failure.  Valid iff the
error dict is empty. -/
def validar_paciente_completo (hoy : Fecha) (now : FechaHora)
    (expediente : Option String) (cui : Option Int) (pasaporte : Option String)
    (nombre : Nombre) (sexo : String) (fecha_nacimiento : Option Fecha)
    (contacto : Option Contacto) (referencias : Option Referencias)
    (datos_extra : Option DatosExtra) (estado : String) :
    Bool × List (String × List String) :=
  let m : List (String × List String) := []
  let r_ids := validar_identificadores expediente cui pasaporte
  let m := if !r_ids.1 then dictSet m "identificadores" r_ids.2 else m
  let r_nombre := validar_nombre_jsonb nombre
  let m := if !r_nombre.1 then dictSet m "nombre" r_nombre.2 else m
  let r_sexo := validar_sexo sexo
  let m := if !r_sexo.1 then dictSet m "sexo" [r_sexo.2.getD ""] else m
  let r_fecha := validar_fecha_nacimiento hoy fecha_nacimiento
  let m := if !r_fecha.1 then dictSet m "fecha_nacimiento" [r_fecha.2.getD ""] else m
  let r_contacto := validar_contacto_jsonb contacto
  let m := if !r_contacto.1 then dictSet m "contacto" r_contacto.2 else m
  let r_refs := validar_referencias_jsonb referencias
  let m := if !r_refs.1 then dictSet m "referencias" r_refs.2 else m
  let r_extra := validar_datos_extra_jsonb now datos_extra
  let m := if !r_extra.1 then dictSet m "datos_extra" r_extra.2 else m
  let r_estado := validar_estado estado
  let m := if !r_estado.1 then dictSet m "estado" [r_estado.2.getD ""] else m
  let m :=
    if (estado == "F") && !tieneDefuncion datos_extra then
      dictSet m "estado" ["Paciente fallecido debe tener fecha de defuncion"]
    else m
  (m.isEmpty, m)

/-! ## Claim C3: cross-field coherence of vital status and death data -/

/-- Setting a key on the error dict never leaves it empty. -/
theorem dictSet_ne_nil (m : List (String × List String)) (k : String) (v : List String) :
    dictSet m k v ≠ [] := by
  unfold dictSet
  split_ifs with h
  · intro hc
    rw [List.map_eq_nil_iff] at hc
    subst hc
    simp at h
  · simp

/-- Setting a key on the error dict leaves it non-empty. -/
theorem dictSet_isEmpty (m : List (String × List String)) (k : String) (v : List String) :
    (dictSet m k v).isEmpty = false := by
  cases hM : dictSet m k v with
  | nil => exact absurd hM (dictSet_ne_nil m k v)
  | cons a l => rfl

/-- A well-formed name for the concrete validation runs. -/
def nombreEjemplo : Nombre := ⟨some "Juan", none, none, some "Perez", none, none⟩

/-- An extra-data document carrying a past death timestamp. -/
def datosExtraConDefuncion : DatosExtra :=
  ⟨⟨none, none, none, none, none, none⟩, ⟨none, none⟩, some ⟨some "2020-01-15T10:30:00"⟩⟩

/-- A concrete clock reading used by the closed validation runs. -/
def nowEjemplo : FechaHora := ⟨⟨2026, 10, 12⟩, ⟨0, 0, 0⟩⟩

/-- The date part of the concrete clock reading. -/
def hoyEjemplo : Fecha := ⟨2026, 10, 12⟩

/-- Counterexample to claim C3 as stated: a candidate with vital status
"V" and a non-absent death sub-document (a past timestamp) is accepted
by `validar_paciente_completo` — the alive-with-death-document
direction of the coherence rule is not enforced, only the
deceased-without-death-document direction is. -/
theorem validar_vivo_con_defuncion_aceptado :
    (validar_paciente_completo hoyEjemplo nowEjemplo (some "12345") none none nombreEjemplo
        "M" none none none (some datosExtraConDefuncion) "V") = (true, []) := by
  decide

/-- Claim C3 amended.  `validar_paciente_completo` enforces the coherence
rule in one direction only: every candidate with vital status "F" and
no death sub-document fails validation, while a candidate with vital
status "V" carrying a non-absent death sub-document is not rejected by
the rule and passes validation when all other checks pass. -/
theorem validar_coherencia_defuncion :
    (∀ (hoy : Fecha) (now : FechaHora) (expediente : Option String) (cui : Option Int)
        (pasaporte : Option String) (nombre : Nombre) (sexo : String)
        (fecha_nacimiento : Option Fecha) (contacto : Option Contacto)
        (referencias : Option Referencias) (datos_extra : Option DatosExtra),
      tieneDefuncion datos_extra = false →
      (validar_paciente_completo hoy now expediente cui pasaporte nombre sexo
          fecha_nacimiento contacto referencias datos_extra "F").1 = false)
    ∧ (validar_paciente_completo hoyEjemplo nowEjemplo (some "12345") none none nombreEjemplo
        "M" none none none (some datosExtraConDefuncion) "V").1 = true := by
  constructor
  · intro hoy now expediente cui pasaporte nombre sexo fecha_nacimiento contacto
      referencias datos_extra h
    unfold validar_paciente_completo
    dsimp only
    have hcond : ((("F" : String) == "F") && !tieneDefuncion datos_extra) = true := by
      rw [h]; rfl
    rw [if_pos hcond]
    exact dictSet_isEmpty _ _ _
  · decide

/-- Witness for the amended C3 at a concrete deceased candidate with no
death sub-document. -/
theorem validar_coherencia_defuncion_witness :
    (validar_paciente_completo hoyEjemplo nowEjemplo (some "12345") none none nombreEjemplo
        "M" none none none none "F").1 = false :=
  validar_coherencia_defuncion.1 hoyEjemplo nowEjemplo (some "12345") none none nombreEjemplo
    "M" none none none none rfl
